import Mathlib

/-!
Verification development for the food-app backend (`src/backend/main.py`).

The backend is a thin proxy over a nutrition database.  Its core logic is:
  * `_simplify_foods`   — normalises raw search-result records to `FoodItem`s;
  * `_extract_key_nutrients` — extracts five key nutrients from a raw food
    record, trying a fixed nutrient-ID table first and falling back to
    name-substring matching;
  * the `/search` and `/food/{fdc_id}` handlers, which check the API key,
    call upstream, and reshape the response.

The Python code manipulates dynamically typed JSON-derived values, so we embed
a small universe `PyVal` of Python values (as produced by `json` parsing) and
model the relevant Python primitives (truthiness, `or`, `dict.get`, `float()`,
`int()`, `str()`, `str.lower()`, substring `in`) explicitly.  Fallible Python
operations (attribute errors, coercion errors) are modelled with `Except`,
since an uncaught exception in a handler propagates to the framework.
-/

namespace FoodApp

/-- Python exception kinds that the modelled code can raise. -/
inductive PyErr where
  | typeError
  | valueError
  | attributeError
  | jsonDecodeError
  deriving DecidableEq

/-- Values of the dynamic (JSON-derived) Python universe used by the backend:
`None`, booleans, ints, floats (modelled as rationals — no claim here concerns
floating-point rounding), strings, lists and string-keyed dicts. -/
inductive PyVal where
  | none
  | bool (b : Bool)
  | int (n : ℤ)
  | float (q : ℚ)
  | str (s : String)
  | list (xs : List PyVal)
  | dict (kvs : List (String × PyVal))

/-- Python truthiness (`bool(x)`) on the constructors of `PyVal`:
`None`/`False`/`0`/`0.0`/`""`/`[]`/`\x7b\x7d` are falsy, everything else truthy. -/
def pyTruthy : PyVal → Bool
  | .none => false
  | .bool b => b
  | .int n => !(n == 0)
  | .float q => !(q == 0)
  | .str s => !(s == "")
  | .list xs => !xs.isEmpty
  | .dict kvs => !kvs.isEmpty

/-- Python `a or b`: returns `a` if it is truthy, otherwise `b`. -/
def pyOr (a b : PyVal) : PyVal := if pyTruthy a then a else b

/-- Test for the Python value `None`. -/
def isNone : PyVal → Bool
  | .none => true
  | _ => false

/-- Association-list lookup with a default, modelling `dict.get(k, d)` on a
dict already known to be a dict.  Python dicts have unique keys, so the
first-match behaviour of `List.lookup` agrees with dict lookup. -/
def dgetD (kvs : List (String × PyVal)) (k : String) (d : PyVal) : PyVal :=
  (List.lookup k kvs).getD d

/-- Python `v.get(k, d)`: succeeds on dicts, raises `AttributeError` on any
other value (ints, strings, lists, `None`, … have no `.get`). -/
def pyGetAttrD (v : PyVal) (k : String) (d : PyVal) : Except PyErr PyVal :=
  match v with
  | .dict kvs => .ok (dgetD kvs k d)
  | _ => .error .attributeError

/-- Python `v.get(k)` (default `None`). -/
def pyGetAttr (v : PyVal) (k : String) : Except PyErr PyVal :=
  pyGetAttrD v k .none

/-- Python iteration `for x in v`: lists yield their elements, strings their
characters (as one-character strings), dicts their keys; other values raise
`TypeError`. -/
def pyIterList : PyVal → Except PyErr (List PyVal)
  | .list xs => .ok xs
  | .str s => .ok (s.toList.map (fun c => .str (String.singleton c)))
  | .dict kvs => .ok (kvs.map (fun p => .str p.1))
  | _ => .error .typeError

/-- Python `isinstance(x, int)`, returning the integer value when it holds.
Note that in Python `bool` is a subclass of `int`, so `True`/`False` pass the
check with values `1`/`0`. -/
def isInstInt : PyVal → Option ℤ
  | .int n => some n
  | .bool b => some (if b then 1 else 0)
  | _ => Option.none

/-- Helper: the natural number denoted by a list of decimal digit characters. -/
def digitsVal (cs : List Char) : ℕ :=
  cs.foldl (fun a c => a * 10 + (c.toNat - 48)) 0

/-- Modelled from Python `float(s)` restricted to plain decimal string
literals: optional sign, digits with an optional single decimal point
(`"12"`, `"+3.5"`, `".5"`, `"1."`).  Other accepted Python forms (exponents,
`inf`/`nan`, underscores, surrounding whitespace) are outside the scope of the
claims; every string that this parser accepts is accepted by Python with the
same value, and the rejected strings used by the claims (non-numeric text) are
rejected by Python too (`ValueError`). -/
def pyFloatStrCore (cs : List Char) : Except PyErr ℚ :=
  let intPart := cs.takeWhile Char.isDigit
  let rest := cs.dropWhile Char.isDigit
  match rest with
  | [] =>
    if intPart.isEmpty then .error .valueError
    else .ok ((digitsVal intPart : ℤ) : ℚ)
  | '.' :: frac =>
    if frac.all Char.isDigit && !(intPart.isEmpty && frac.isEmpty) then
      .ok (((digitsVal intPart : ℤ) : ℚ) + ((digitsVal frac : ℤ) : ℚ) / ((10 : ℚ) ^ frac.length))
    else .error .valueError
  | _ => .error .valueError

/-- Sign handling for `float(s)` on strings. -/
def pyFloatStr (s : String) : Except PyErr ℚ :=
  match s.toList with
  | '+' :: cs => pyFloatStrCore cs
  | '-' :: cs => (pyFloatStrCore cs).map Neg.neg
  | cs => pyFloatStrCore cs

/-- Python `float(x)`: numbers and booleans coerce; strings are parsed
(`ValueError` on failure); `None`, lists and dicts raise `TypeError`. -/
def pyFloat : PyVal → Except PyErr ℚ
  | .int n => .ok (n : ℚ)
  | .float q => .ok q
  | .bool b => .ok (if b then 1 else 0)
  | .str s => pyFloatStr s
  | _ => .error .typeError

/-- Modelled from Python `int(s)` restricted to optionally signed decimal
digit strings; other strings raise `ValueError`. -/
def pyIntStr (s : String) : Except PyErr ℤ :=
  match s.toList with
  | '+' :: cs =>
    if !cs.isEmpty && cs.all Char.isDigit then .ok (digitsVal cs : ℤ) else .error .valueError
  | '-' :: cs =>
    if !cs.isEmpty && cs.all Char.isDigit then .ok (-(digitsVal cs : ℤ)) else .error .valueError
  | cs =>
    if !cs.isEmpty && cs.all Char.isDigit then .ok (digitsVal cs : ℤ) else .error .valueError

/-- Python `int(x)`: ints and booleans coerce; floats truncate toward zero;
digit strings parse; `None`, lists and dicts raise `TypeError`. -/
def pyInt : PyVal → Except PyErr ℤ
  | .int n => .ok n
  | .bool b => .ok (if b then 1 else 0)
  | .float q => .ok (if 0 ≤ q then ⌊q⌋ else ⌈q⌉)
  | .str s => pyIntStr s
  | _ => .error .typeError

/-- Python `str(x)`.  Only the string case is exercised by the claims; the
representations of floats, lists and dicts are abbreviated stand-ins for
Python's `repr`-based rendering. -/
def pyStr : PyVal → String
  | .str s => s
  | .none => "None"
  | .bool b => if b then "True" else "False"
  | .int n => toString n
  | .float q => toString q
  | .list _ => "[...]"
  | .dict _ => "\x7b...\x7d"

/-- Python `s.lower()` (ASCII lowering suffices for the names involved),
written through the character list so that emptiness is easy to reason
about. -/
def lowerStr (s : String) : String :=
  String.mk (s.toList.map Char.toLower)

/-- Python `v.lower()`: succeeds on strings, raises `AttributeError` on any
other value. -/
def pyLower : PyVal → Except PyErr String
  | .str s => .ok (lowerStr s)
  | _ => .error .attributeError

/-- Python substring test `pat in s`. -/
def strContains (s pat : String) : Bool :=
  decide (pat.toList <:+: s.toList)

/-- Truthiness of the `API_KEY` global (`os.getenv` result): `None` and the
empty string are falsy. -/
def pyTruthyStrOpt : Option String → Bool
  | Option.none => false
  | some s => !(s == "")

/-! ## Data model (the Pydantic response models) -/

/-- `FoodItem` model: `fdcId : int`, `description : str`.  Booleans passing
the `isinstance(_, int)` check are recorded as their integer value (Python's
`bool` is a subclass of `int`). -/
structure FoodItem where
  fdcId : ℤ
  description : String
  deriving DecidableEq

/-- `SearchResponse` model. -/
structure SearchResponse where
  foods : List FoodItem
  totalHits : ℤ
  pageNumber : ℤ
  totalPages : ℤ
  deriving DecidableEq

/-- The five tracked nutrient kinds (the fields of the `Nutrients` model). -/
inductive NutrientKind where
  | calories
  | protein
  | fat
  | carbs
  | fiber
  deriving DecidableEq

/-- `Nutrients` model: five optional numeric values, all `None` unless
positively matched. -/
structure Nutrients where
  calories : Option ℚ := Option.none
  protein : Option ℚ := Option.none
  fat : Option ℚ := Option.none
  carbs : Option ℚ := Option.none
  fiber : Option ℚ := Option.none
  deriving DecidableEq

/-- The all-`None` initial `found` dict of `_extract_key_nutrients`. -/
def initNutrients : Nutrients := {}

/-- Write `found[kind] = q` on a `Nutrients` record. -/
def setKind (f : Nutrients) : NutrientKind → ℚ → Nutrients
  | .calories, q => { f with calories := some q }
  | .protein, q => { f with protein := some q }
  | .fat, q => { f with fat := some q }
  | .carbs, q => { f with carbs := some q }
  | .fiber, q => { f with fiber := some q }

/-- Read `found[kind]` from a `Nutrients` record. -/
def getKind (f : Nutrients) : NutrientKind → Option ℚ
  | .calories => f.calories
  | .protein => f.protein
  | .fat => f.fat
  | .carbs => f.carbs
  | .fiber => f.fiber

/-- `FoodDetails` model. -/
structure FoodDetails where
  fdcId : ℤ
  description : String
  nutrients : Nutrients
  deriving DecidableEq

/-! ## The Food Summary Normalizer (`_simplify_foods`) -/

/-- The loop body of `_simplify_foods` over the already-materialised element
list: per element `it`, read `it.get("fdcId")`, build the description
fallback chain `it.get("description") or it.get("lowercaseDescription") or
"Unknown item"`, and append a `FoodItem` only when `isinstance(fdc_id, int)`
holds.  A non-dict element makes `it.get` raise, aborting the whole call. -/
def simpLoop : List PyVal → Except PyErr (List FoodItem)
  | [] => .ok []
  | it :: rest =>
    match pyGetAttrD it "fdcId" .none with
    | .error e => .error e
    | .ok fdc =>
      match pyGetAttrD it "description" .none with
      | .error e => .error e
      | .ok d1 =>
        match pyGetAttrD it "lowercaseDescription" .none with
        | .error e => .error e
        | .ok d2 =>
          let desc := pyOr d1 (pyOr d2 (.str "Unknown item"))
          match isInstInt fdc with
          | some n =>
            match simpLoop rest with
            | .error e => .error e
            | .ok tail => .ok (⟨n, pyStr desc⟩ :: tail)
          | Option.none => simpLoop rest

/-- `_simplify_foods(items)`: iterate over `items or []` and run the loop. -/
def _simplify_foods (items : PyVal) : Except PyErr (List FoodItem) :=
  match pyIterList (pyOr items (.list [])) with
  | .error e => .error e
  | .ok xs => simpLoop xs

/-! ## The Nutrient Extractor (`_extract_key_nutrients`) -/

/-- The `KEY_NUTRIENT_IDS` table: 208 → calories, 203 → protein, 204 → fat,
205 → carbs, 291 → fiber. -/
def KEY_NUTRIENT_IDS : List (ℤ × NutrientKind) :=
  [(208, .calories), (203, .protein), (204, .fat), (205, .carbs), (291, .fiber)]

/-- The combined test `isinstance(nid, int) and nid in KEY_NUTRIENT_IDS`,
returning `KEY_NUTRIENT_IDS[nid]` when it succeeds. -/
def idAssign (nid : PyVal) : Option NutrientKind :=
  match isInstInt nid with
  | some i => List.lookup i KEY_NUTRIENT_IDS
  | Option.none => Option.none

/-- The loop body of `_extract_key_nutrients` for one entry `n` of
`foodNutrients`: read `nut = n.get("nutrient") or \x7b\x7d` and
`amount = n.get("amount")`; skip the entry when the amount is `None`; try the
ID table first (`continue` on a hit); otherwise lower-case the name fallback
chain and run the substring cascade.  Every write is
`found[kind] = float(amount)`; `float` failures and attribute errors
propagate. -/
def nutStep (found : Nutrients) (n : PyVal) : Except PyErr Nutrients :=
  match n with
  | .dict kvs =>
    let nut := pyOr (dgetD kvs "nutrient" .none) (.dict [])
    let amount := dgetD kvs "amount" .none
    if isNone amount then .ok found
    else
      match pyGetAttr nut "id" with
      | .error e => .error e
      | .ok nid =>
        match idAssign nid with
        | some kind => (pyFloat amount).map (fun q => setKind found kind q)
        | Option.none =>
          match pyGetAttr nut "name" with
          | .error e => .error e
          | .ok nm =>
            let nameV := pyOr nm (pyOr (dgetD kvs "nutrientName" .none) (.str ""))
            match pyLower nameV with
            | .error e => .error e
            | .ok name =>
              if name == "" then .ok found
              else if strContains name "energy" || strContains name "calorie" then
                (pyFloat amount).map (fun q => setKind found .calories q)
              else if strContains name "protein" then
                (pyFloat amount).map (fun q => setKind found .protein q)
              else if strContains name "carbohydrate" then
                (pyFloat amount).map (fun q => setKind found .carbs q)
              else if strContains name "fiber" then
                (pyFloat amount).map (fun q => setKind found .fiber q)
              else if strContains name "fat" && !strContains name "saturated" then
                (pyFloat amount).map (fun q => setKind found .fat q)
              else .ok found
  | _ => .error .attributeError

/-- The fold of `nutStep` over the entry list, threading the `found` dict. -/
def extractLoop (found : Nutrients) : List PyVal → Except PyErr Nutrients
  | [] => .ok found
  | n :: rest =>
    match nutStep found n with
    | .error e => .error e
    | .ok f => extractLoop f rest

/-- `_extract_key_nutrients(food_json)`: iterate over
`food_json.get("foodNutrients", []) or []` starting from the all-`None`
dict. -/
def _extract_key_nutrients (food_json : PyVal) : Except PyErr Nutrients :=
  match pyGetAttrD food_json "foodNutrients" (.list []) with
  | .error e => .error e
  | .ok fns =>
    match pyIterList (pyOr fns (.list [])) with
    | .error e => .error e
    | .ok xs => extractLoop initNutrients xs

/-! ## Handlers (`/search` and `/food/{fdc_id}`) -/

/-- Error outcomes of a handler: an `HTTPException(status, detail)` raised by
the code itself, or an uncaught Python exception (which FastAPI turns into a
500; we keep the exception kind to show propagation). -/
inductive Failure where
  | http (status : ℕ) (detail : String)
  | pyExc (e : PyErr)
  deriving DecidableEq

/-- An upstream HTTP response: its status code and the outcome of
`resp.json()` (`Except.error` models a JSON decode failure, which `requests`
raises for an empty or malformed body).  `resp.ok` is `status < 400`. -/
structure Resp where
  status : ℕ
  parsed : Except Unit PyVal

/-- Result of the outbound `requests.get`: a transport-level exception or a
response. -/
inductive UpstreamResult where
  | fail (msg : String)
  | resp (r : Resp)

/-- The detail message of the missing-key `HTTPException` in
`_ensure_api_key`. -/
def misconfiguredMsg : String :=
  "Server misconfigured: USDA_API_KEY missing. Add it to .env"

/-- Model of `int(data.get(key, d) or d)` (the duplicated default pattern of
the handlers' pagination fields). -/
def intField (data : PyVal) (key : String) (d : PyVal) : Except PyErr ℤ :=
  match pyGetAttrD data key d with
  | .error e => .error e
  | .ok v => pyInt (pyOr v d)

/-- The body of `search_foods` after the upstream call returned a response
`r`: check `resp.ok`, parse the body (`data = resp.json() or \x7b\x7d`), then
build the `SearchResponse` from `_simplify_foods(data.get("foods", []))` and
the three `int(... or ...)` pagination fields, in source order. -/
def searchAfterCall (page : ℤ) (r : Resp) : Except Failure SearchResponse :=
  if 400 ≤ r.status then .error (.http r.status "USDA search failed")
  else
    match r.parsed with
    | .error _ => .error (.pyExc .jsonDecodeError)
    | .ok dataJ =>
      let data := pyOr dataJ (.dict [])
      match pyGetAttrD data "foods" (.list []) with
      | .error e => .error (.pyExc e)
      | .ok foodsV =>
        match _simplify_foods foodsV with
        | .error e => .error (.pyExc e)
        | .ok foods =>
          match intField data "totalHits" (.int 0) with
          | .error e => .error (.pyExc e)
          | .ok totalHits =>
            match intField data "currentPage" (.int page) with
            | .error e => .error (.pyExc e)
            | .ok currentPage =>
              match intField data "totalPages" (.int 0) with
              | .error e => .error (.pyExc e)
              | .ok totalPages =>
                .ok ⟨foods, totalHits, currentPage, totalPages⟩

/-- The `search_foods` handler.  `apiKey` is the `API_KEY` global, `up` the
outcome the outbound call would have; the second component counts outbound
upstream calls actually made (`_ensure_api_key` runs before the request, so a
missing key means zero calls).  The `query` string only feeds the request
parameters and does not influence the modelled control flow. -/
def search_foods (apiKey : Option String) (query : String) (page : ℤ)
    (up : UpstreamResult) : Except Failure SearchResponse × ℕ :=
  if !pyTruthyStrOpt apiKey then
    (.error (.http 500 misconfiguredMsg), 0)
  else
    match up with
    | .fail msg => (.error (.http 502 ("Upstream request failed: " ++ msg)), 1)
    | .resp r => (searchAfterCall page r, 1)

/-- The body of `get_food_details` after the upstream call returned `r`:
404 check first, then `resp.ok`, then parse, then
`description = data.get("description") or "Unknown item"`, nutrient
extraction, and `fdcId = int(data.get("fdcId", fdc_id) or fdc_id)`, in source
order. -/
def detailAfterCall (fdc_id : ℤ) (r : Resp) : Except Failure FoodDetails :=
  if r.status == 404 then .error (.http 404 "Food not found")
  else if 400 ≤ r.status then .error (.http r.status "USDA detail failed")
  else
    match r.parsed with
    | .error _ => .error (.pyExc .jsonDecodeError)
    | .ok dataJ =>
      let data := pyOr dataJ (.dict [])
      match pyGetAttrD data "description" .none with
      | .error e => .error (.pyExc e)
      | .ok descRaw =>
        let description := pyOr descRaw (.str "Unknown item")
        match _extract_key_nutrients data with
        | .error e => .error (.pyExc e)
        | .ok nutrients =>
          match intField data "fdcId" (.int fdc_id) with
          | .error e => .error (.pyExc e)
          | .ok fid => .ok ⟨fid, pyStr description, nutrients⟩

/-- The `get_food_details` handler, with the same key-check-first and
call-counting structure as `search_foods`. -/
def get_food_details (apiKey : Option String) (fdc_id : ℤ)
    (up : UpstreamResult) : Except Failure FoodDetails × ℕ :=
  if !pyTruthyStrOpt apiKey then
    (.error (.http 500 misconfiguredMsg), 0)
  else
    match up with
    | .fail msg => (.error (.http 502 ("Upstream request failed: " ++ msg)), 1)
    | .resp r => (detailAfterCall fdc_id r, 1)

/-! ## Derived characterisations used by the theorems -/

/-- The description fallback chain of `_simplify_foods` for one record:
`it.get("description") or it.get("lowercaseDescription") or "Unknown item"`. -/
def descChain (r : List (String × PyVal)) : PyVal :=
  pyOr (dgetD r "description" .none) (pyOr (dgetD r "lowercaseDescription" .none) (.str "Unknown item"))

/-- The per-record outcome of the Normalizer: `some` `FoodItem` when the
`fdcId` field passes the `isinstance(_, int)` check, `none` (dropped) when it
does not. -/
def mkOpt (r : List (String × PyVal)) : Option FoodItem :=
  (isInstInt (dgetD r "fdcId" .none)).map (fun n => FoodItem.mk n (pyStr (descChain r)))

/-- Total transform of a raw record into a `FoodItem` (id `0` when the record
has no integer id); used to phrase the subsequence property. -/
def mkFood (r : List (String × PyVal)) : FoodItem :=
  ⟨(isInstInt (dgetD r "fdcId" .none)).getD 0, pyStr (descChain r)⟩

theorem simpLoop_dicts (records : List (List (String × PyVal))) :
    simpLoop (records.map PyVal.dict) = .ok (records.filterMap mkOpt) := by
  induction records with
  | nil => rfl
  | cons r rs ih =>
    simp only [List.map_cons, simpLoop, pyGetAttrD, List.filterMap_cons]
    cases h : isInstInt (dgetD r "fdcId" .none) with
    | none =>
      simp [mkOpt, h, ih]
    | some n =>
      simp [mkOpt, h, ih, descChain]

theorem simplify_foods_list (xs : List PyVal) :
    _simplify_foods (.list xs) = simpLoop xs := by
  cases xs with
  | nil => rfl
  | cons x xs => rfl

theorem simplify_foods_dicts (records : List (List (String × PyVal))) :
    _simplify_foods (.list (records.map PyVal.dict)) = .ok (records.filterMap mkOpt) := by
  rw [simplify_foods_list, simpLoop_dicts]

/-- The kind-classification part of the extractor's loop body: which nutrient
kind (if any) entry `n` matches, by ID or by name, before any amount
coercion.  It runs exactly the reads and tests of `nutStep` up to (but not
including) the `float(amount)` call, so it errors precisely when `nutStep`
errors before coercing. -/
def matchedKind (n : PyVal) : Except PyErr (Option NutrientKind) :=
  match n with
  | .dict kvs =>
    let nut := pyOr (dgetD kvs "nutrient" .none) (.dict [])
    let amount := dgetD kvs "amount" .none
    if isNone amount then .ok Option.none
    else
      match pyGetAttr nut "id" with
      | .error e => .error e
      | .ok nid =>
        match idAssign nid with
        | some kind => .ok (some kind)
        | Option.none =>
          match pyGetAttr nut "name" with
          | .error e => .error e
          | .ok nm =>
            let nameV := pyOr nm (pyOr (dgetD kvs "nutrientName" .none) (.str ""))
            match pyLower nameV with
            | .error e => .error e
            | .ok name =>
              if name == "" then .ok Option.none
              else if strContains name "energy" || strContains name "calorie" then
                .ok (some .calories)
              else if strContains name "protein" then .ok (some .protein)
              else if strContains name "carbohydrate" then .ok (some .carbs)
              else if strContains name "fiber" then .ok (some .fiber)
              else if strContains name "fat" && !strContains name "saturated" then
                .ok (some .fat)
              else .ok Option.none
  | _ => .error .attributeError

/-- The `amount` field of an entry (`None` for non-dicts, whose processing
fails before the amount is used). -/
def amountOf (n : PyVal) : PyVal :=
  match n with
  | .dict kvs => dgetD kvs "amount" .none
  | _ => .none

/-- The complete per-entry outcome: the matched kind together with the
coerced amount (`float(amount)` runs only on a match). -/
def entryKind (n : PyVal) : Except PyErr (Option (NutrientKind × ℚ)) :=
  match matchedKind n with
  | .error e => .error e
  | .ok Option.none => .ok Option.none
  | .ok (some k) => (pyFloat (amountOf n)).map (fun q => some (k, q))

/-- Apply a per-entry outcome to the `found` dict: a match overwrites one
kind, no match leaves `found` unchanged. -/
def applyAssign (found : Nutrients) : Option (NutrientKind × ℚ) → Nutrients
  | Option.none => found
  | some (k, q) => setKind found k q

/-- The loop body of the extractor is exactly: classify the entry, coerce on
a match, write at most one kind. -/
theorem nutStep_factor (found : Nutrients) (n : PyVal) :
    nutStep found n = (entryKind n).map (applyAssign found) := by
  cases n with
  | dict kvs =>
    simp only [nutStep, entryKind, matchedKind, amountOf]
    split
    · rfl
    · split
      · rfl
      · split
        · cases h : pyFloat (dgetD kvs "amount" .none) <;>
            simp [Except.map, applyAssign]
        · split
          · rfl
          · split
            · rfl
            · split
              · rfl
              · split
                · cases h : pyFloat (dgetD kvs "amount" .none) <;>
                    simp [Except.map, applyAssign]
                · split
                  · cases h : pyFloat (dgetD kvs "amount" .none) <;>
                      simp [Except.map, applyAssign]
                  · split
                    · cases h : pyFloat (dgetD kvs "amount" .none) <;>
                        simp [Except.map, applyAssign]
                    · split
                      · cases h : pyFloat (dgetD kvs "amount" .none) <;>
                          simp [Except.map, applyAssign]
                      · split
                        · cases h : pyFloat (dgetD kvs "amount" .none) <;>
                            simp [Except.map, applyAssign]
                        · rfl
  | none => rfl
  | bool b => rfl
  | int n => rfl
  | float q => rfl
  | str s => rfl
  | list xs => rfl

/-- Reading a kind after a single write: the written kind holds the new
value, every other kind is untouched. -/
theorem getKind_setKind (f : Nutrients) (k' k : NutrientKind) (q : ℚ) :
    getKind (setKind f k' q) k = if k' = k then some q else getKind f k := by
  cases k' <;> cases k <;> simp [setKind, getKind]

/-- The amounts assigned to kind `k` by the entries of `es`, in input order
(one element per entry that matches `k` and coerces successfully). -/
def esAssigns (k : NutrientKind) (es : List PyVal) : List ℚ :=
  es.filterMap (fun n =>
    match entryKind n with
    | .ok (some (k', q)) => if k' = k then some q else Option.none
    | _ => Option.none)

theorem getLast?_cons_elim {α : Type} (a : α) (l : List α) :
    (a :: l).getLast? = (l.getLast?).elim (some a) some := by
  cases l with
  | nil => rfl
  | cons b m =>
    rw [List.getLast?_cons_cons]
    cases h : (b :: m).getLast? with
    | none => exact absurd (List.getLast?_eq_none_iff.mp h) (List.cons_ne_nil b m)
    | some x => rfl

/-- During the extractor's fold, each kind ends at the last amount assigned
to it, falling back to the incoming value when no entry assigns it. -/
theorem extractLoop_lastAssign (es : List PyVal) :
    ∀ found g, extractLoop found es = .ok g →
      ∀ k, getKind g k = ((esAssigns k es).getLast?).elim (getKind found k) some := by
  induction es with
  | nil =>
    intro found g h k
    cases h
    rfl
  | cons n rest ih =>
    intro found g h k
    rw [extractLoop] at h
    rw [nutStep_factor] at h
    cases hek : entryKind n with
    | error e => rw [hek] at h; exact absurd h (by simp [Except.map])
    | ok o =>
      rw [hek] at h
      simp only [Except.map] at h
      have ihg := ih (applyAssign found o) g h k
      cases o with
      | none =>
        have : esAssigns k (n :: rest) = esAssigns k rest := by
          simp [esAssigns, List.filterMap_cons, hek]
        rw [this, ihg]
        rfl
      | some kq =>
        obtain ⟨k', q⟩ := kq
        by_cases hkk : k' = k
        · subst hkk
          have hcons : esAssigns k' (n :: rest) = q :: esAssigns k' rest := by
            simp [esAssigns, List.filterMap_cons, hek]
          rw [hcons, getLast?_cons_elim, ihg, applyAssign, getKind_setKind]
          cases hlast : (esAssigns k' rest).getLast? <;> simp
        · have : esAssigns k (n :: rest) = esAssigns k rest := by
            simp [esAssigns, List.filterMap_cons, hek, hkk]
          rw [this, ihg, applyAssign, getKind_setKind, if_neg hkk]

/-- `_extract_key_nutrients` on a record whose `foodNutrients` field is the
entry list `es` runs the fold from the all-`None` dict. -/
theorem extract_on_entries (es : List PyVal) :
    _extract_key_nutrients (.dict [("foodNutrients", .list es)]) =
      extractLoop initNutrients es := by
  cases es with
  | nil => rfl
  | cons n rest => rfl

theorem extractLoop_cons (found : Nutrients) (n : PyVal) (rest : List PyVal) :
    extractLoop found (n :: rest) =
      match nutStep found n with
      | .error e => .error e
      | .ok f => extractLoop f rest := rfl

/-- Splitting the extractor's fold at a list append. -/
theorem extractLoop_append (xs ys : List PyVal) :
    ∀ found, extractLoop found (xs ++ ys) =
      match extractLoop found xs with
      | .error e => .error e
      | .ok f => extractLoop f ys := by
  induction xs with
  | nil => intro found; rfl
  | cons n rest ih =>
    intro found
    rw [List.cons_append, extractLoop, extractLoop]
    cases nutStep found n with
    | error e => rfl
    | ok f => exact ih f

/-- The kept records form a sublist of the totally-transformed input. -/
theorem filterMap_mkOpt_sublist (records : List (List (String × PyVal))) :
    (records.filterMap mkOpt).Sublist (records.map mkFood) := by
  induction records with
  | nil => exact List.Sublist.refl []
  | cons r rs ih =>
    rw [List.filterMap_cons, List.map_cons]
    cases h : isInstInt (dgetD r "fdcId" .none) with
    | none =>
      rw [mkOpt, h]
      exact List.Sublist.cons (mkFood r) ih
    | some n =>
      have : mkOpt r = some (mkFood r) := by
        rw [mkOpt, mkFood, h]
        rfl
      rw [this]
      exact List.Sublist.cons₂ (mkFood r) ih

/-! ## Claims -/

/-- C1, counterexample: the raw record `\x7b"fdcId": 0\x7d` has an id that is
an integer but not a positive one, yet the Normalizer keeps it (producing a
`FoodSummary` with id `0`) instead of dropping it. -/
theorem C1_counterexample :
    _simplify_foods (.list [.dict [("fdcId", .int 0)]]) =
      .ok [{ fdcId := 0, description := "Unknown item" }] ∧ ¬ (0 : ℤ) < 0 :=
  ⟨rfl, by decide⟩

/-- C1, amended: for every input list of raw records, the Normalizer returns
without error exactly the records whose `fdcId` field passes Python's
`isinstance(_, int)` check (positivity is NOT required: zero and negative ids
are kept), each paired with its description fallback chain; all other records
are dropped silently. -/
theorem C1_normalizer_integer_filter (records : List (List (String × PyVal))) :
    _simplify_foods (.list (records.map PyVal.dict)) = .ok (records.filterMap mkOpt) :=
  simplify_foods_dicts records

/-- C7: with the API credential absent, both handlers fail with status 500
and the "Server misconfigured" message, and the upstream call count is zero,
whatever the upstream would have answered. -/
theorem C7_missing_key_fails_before_upstream :
    ∀ (query : String) (page : ℤ) (up : UpstreamResult) (fdc_id : ℤ),
      search_foods Option.none query page up = (.error (.http 500 misconfiguredMsg), 0) ∧
      get_food_details Option.none fdc_id up = (.error (.http 500 misconfiguredMsg), 0) := by
  intro query page up fdc_id
  exact ⟨rfl, rfl⟩

/-- C8: the Normalizer neither sorts, deduplicates nor invents entries: its
output is a sublist (order-preserving subsequence) of the transformed input,
its length is at most the input length, and every output id is the integer id
of some input record. -/
theorem C8_normalizer_order_and_ids (records : List (List (String × PyVal))) :
    ∃ out, _simplify_foods (.list (records.map PyVal.dict)) = .ok out ∧
      out.Sublist (records.map mkFood) ∧
      out.length ≤ records.length ∧
      ∀ f ∈ out, ∃ r ∈ records, isInstInt (dgetD r "fdcId" .none) = some f.fdcId := by
  refine ⟨records.filterMap mkOpt, simplify_foods_dicts records, filterMap_mkOpt_sublist records, ?_, ?_⟩
  · calc (records.filterMap mkOpt).length
        ≤ (records.map mkFood).length := (filterMap_mkOpt_sublist records).length_le
      _ = records.length := List.length_map _ _
  · intro f hf
    rw [List.mem_filterMap] at hf
    obtain ⟨r, hr, hmk⟩ := hf
    refine ⟨r, hr, ?_⟩
    rw [mkOpt] at hmk
    cases h : isInstInt (dgetD r "fdcId" .none) with
    | none => rw [h] at hmk; exact absurd hmk (by simp)
    | some n =>
      rw [h] at hmk
      simp only [Option.map_some'] at hmk
      have hf := (Option.some.inj hmk).symm
      subst hf
      rfl

theorem pyTruthy_none : pyTruthy .none = false := rfl

/-- C9: a `description` field that is present but falsy triggers the same
fallback chain (lowercaseDescription, then "Unknown item") as an absent
`description` field. -/
theorem C9_falsy_description_falls_back (v ld : PyVal) (i : ℤ)
    (hv : pyTruthy v = false) :
    _simplify_foods (.list [.dict
        [("fdcId", .int i), ("description", v), ("lowercaseDescription", ld)]]) =
      _simplify_foods (.list [.dict
        [("fdcId", .int i), ("lowercaseDescription", ld)]]) ∧
    _simplify_foods (.list [.dict
        [("fdcId", .int i), ("description", v), ("lowercaseDescription", ld)]]) =
      .ok [⟨i, pyStr (pyOr ld (.str "Unknown item"))⟩] := by
  constructor <;>
    simp [simplify_foods_list, simpLoop, pyGetAttrD, dgetD, List.lookup, pyOr, hv, isInstInt,
      pyTruthy_none]

/-- C9 witness: the empty-string description falls back to the lowercase
description. -/
theorem C9_witness :
    pyTruthy (.str "") = false ∧
    _simplify_foods (.list [.dict
        [("fdcId", .int 3), ("description", .str ""), ("lowercaseDescription", .str "apple pie")]]) =
      .ok [⟨3, "apple pie"⟩] := by
  refine ⟨rfl, ?_⟩
  rw [(C9_falsy_description_falls_back (.str "") (.str "apple pie") 3 rfl).2]
  rfl

/-- C3: an entry whose nested nutrient id is in `KEY_NUTRIENT_IDS` and whose
amount is present and coercible assigns the coerced amount to the mapped kind
and skips name matching entirely: the result does not depend on the `name` or
`nutrientName` fields (which range over arbitrary values here, including ones
the name path could not even process). -/
theorem C3_id_match_skips_name (found : Nutrients) (i : ℤ) (kind : NutrientKind)
    (nameV nn a : PyVal) (q : ℚ)
    (hid : List.lookup i KEY_NUTRIENT_IDS = some kind)
    (ha : isNone a = false) (hq : pyFloat a = .ok q) :
    nutStep found (.dict
        [("nutrient", .dict [("id", .int i), ("name", nameV)]),
         ("nutrientName", nn), ("amount", a)]) = .ok (setKind found kind q) := by
  have hid' : idAssign (.int i) = some kind := by
    simp only [idAssign, isInstInt]
    exact hid
  simp [nutStep, dgetD, List.lookup, pyOr, pyTruthy, pyGetAttr, pyGetAttrD,
    hid', ha, hq, Except.map]

/-- C3 witness: id 208 with a completely unrelated name assigns calories. -/
theorem C3_witness :
    List.lookup (208 : ℤ) KEY_NUTRIENT_IDS = some .calories ∧
    isNone (.int 250) = false ∧
    pyFloat (.int 250) = .ok ((250 : ℤ) : ℚ) ∧
    nutStep initNutrients (.dict
        [("nutrient", .dict [("id", .int 208), ("name", .str "Completely unrelated")]),
         ("nutrientName", .none), ("amount", .int 250)]) =
      .ok (setKind initNutrients .calories ((250 : ℤ) : ℚ)) :=
  ⟨rfl, rfl, rfl,
    C3_id_match_skips_name initNutrients 208 .calories (.str "Completely unrelated")
      .none (.int 250) ((250 : ℤ) : ℚ) rfl rfl rfl⟩

/-- Modelled from the spec: the name-based matching policy of §4.2, step 3 —
substring containment, first matching condition wins, in the priority order
energy/calorie → calories, protein → protein, carbohydrate → carbs,
fiber → fiber, fat-and-not-saturated → fat; anything else matches nothing. -/
def specNameMatch (name : String) : Option NutrientKind :=
  if strContains name "energy" || strContains name "calorie" then some .calories
  else if strContains name "protein" then some .protein
  else if strContains name "carbohydrate" then some .carbs
  else if strContains name "fiber" then some .fiber
  else if strContains name "fat" && !strContains name "saturated" then some .fat
  else Option.none

theorem lowerStr_eq_empty_iff (s : String) : lowerStr s = "" ↔ s = "" := by
  obtain ⟨l⟩ := s
  constructor
  · intro h
    have hdata : l.map Char.toLower = [] := congrArg String.data h
    rw [List.map_eq_nil_iff] at hdata
    rw [hdata]
  · intro h
    rw [h]
    rfl

theorem setKind_fat_of_ne (f : Nutrients) (k : NutrientKind) (q : ℚ)
    (h : k ≠ .fat) : (setKind f k q).fat = f.fat := by
  cases k <;> simp [setKind] at h ⊢

/-- C4: a name-matched entry (no usable id) is assigned exactly according to
the spec's priority cascade `specNameMatch` applied to the lower-cased name;
a name containing both "fat" and "saturated" never maps to the fat kind, and
correspondingly the fat field is left untouched for such an entry. -/
theorem C4_name_priority (found : Nutrients) (s : String) (a : PyVal) (q : ℚ)
    (ha : isNone a = false) (hq : pyFloat a = .ok q) :
    (nutStep found (.dict [("nutrient", .dict [("name", .str s)]), ("amount", a)]) =
      match specNameMatch (lowerStr s) with
      | some k => .ok (setKind found k q)
      | Option.none => .ok found) ∧
    (∀ L : String, strContains L "fat" = true → strContains L "saturated" = true →
      specNameMatch L ≠ some .fat) ∧
    (strContains (lowerStr s) "fat" = true → strContains (lowerStr s) "saturated" = true →
      (nutStep found (.dict [("nutrient", .dict [("name", .str s)]), ("amount", a)])).map
          Nutrients.fat = .ok found.fat) := by
  have hcascade : ∀ L : String, strContains L "fat" = true →
      strContains L "saturated" = true → specNameMatch L ≠ some .fat := by
    intro L hf hs
    rw [specNameMatch]
    split_ifs with h1 h2 h3 h4 h5
    · decide
    · decide
    · decide
    · decide
    · exfalso
      rw [hf, hs] at h5
      exact (by decide : ¬((true && !true) = true)) h5
    · decide
  have hmain : nutStep found (.dict [("nutrient", .dict [("name", .str s)]), ("amount", a)]) =
      match specNameMatch (lowerStr s) with
      | some k => .ok (setKind found k q)
      | Option.none => .ok found := by
    by_cases hs0 : s = ""
    · subst hs0
      have h0 : lowerStr "" = "" := rfl
      have hsm : specNameMatch "" = Option.none := by decide
      simp [nutStep, dgetD, List.lookup, pyOr, pyTruthy, pyGetAttr, pyGetAttrD, idAssign,
        isInstInt, pyLower, ha, h0, hsm]
    · have hne : (s == "") = false := by
        simp [hs0]
      have hLne' : lowerStr s ≠ "" := fun h => hs0 ((lowerStr_eq_empty_iff s).mp h)
      have hLne : (lowerStr s == "") = false := by
        simp [hLne']
      rw [specNameMatch]
      split_ifs with h1 h2 h3 h4 h5 <;>
        simp_all [nutStep, dgetD, List.lookup, pyOr, pyTruthy, pyGetAttr, pyGetAttrD,
          idAssign, isInstInt, pyLower, Except.map]
  refine ⟨hmain, hcascade, ?_⟩
  intro hf hsat
  rw [hmain]
  cases hk : specNameMatch (lowerStr s) with
  | none => rfl
  | some k =>
    have : k ≠ .fat := by
      intro hkk
      exact hcascade (lowerStr s) hf hsat (hkk ▸ hk)
    simp [Except.map, setKind_fat_of_ne found k q this]

/-- C4 witness: "Fatty acids, total saturated" matches no kind, in particular
it does not set fat. -/
theorem C4_witness :
    isNone (.int 5) = false ∧
    pyFloat (.int 5) = .ok ((5 : ℤ) : ℚ) ∧
    nutStep initNutrients (.dict
        [("nutrient", .dict [("name", .str "Fatty acids, total saturated")]),
         ("amount", .int 5)]) = .ok initNutrients := by
  refine ⟨rfl, rfl, ?_⟩
  rw [(C4_name_priority initNutrients "Fatty acids, total saturated" (.int 5)
    ((5 : ℤ) : ℚ) rfl rfl).1]
  rfl

theorem getKind_initNutrients (k : NutrientKind) :
    getKind initNutrients k = Option.none := by
  cases k <;> rfl

/-- C5: when extraction succeeds, each nutrient kind ends at exactly the
coerced amount of the last entry (in input order) that matched that kind
(`none` when no entry matched it) — values are overwritten, never summed. -/
theorem C5_last_match_wins (es : List PyVal) (g : Nutrients)
    (h : _extract_key_nutrients (.dict [("foodNutrients", .list es)]) = .ok g)
    (k : NutrientKind) :
    getKind g k = (esAssigns k es).getLast? := by
  rw [extract_on_entries] at h
  have hl := extractLoop_lastAssign es initNutrients g h k
  rw [hl, getKind_initNutrients]
  cases (esAssigns k es).getLast? <;> rfl

/-- C5 witness: two entries both matching calories (one by id, one by name):
the result is the second amount, not the sum. -/
theorem C5_witness :
    _extract_key_nutrients (.dict [("foodNutrients", .list
        [.dict [("nutrient", .dict [("id", .int 208)]), ("amount", .int 100)],
         .dict [("nutrient", .dict [("name", .str "Energy")]), ("amount", .int 200)]])]) =
      .ok { calories := some ((200 : ℤ) : ℚ) } ∧
    getKind { calories := some ((200 : ℤ) : ℚ) } .calories =
      (esAssigns .calories
        [.dict [("nutrient", .dict [("id", .int 208)]), ("amount", .int 100)],
         .dict [("nutrient", .dict [("name", .str "Energy")]), ("amount", .int 200)]]).getLast? := by
  refine ⟨rfl, ?_⟩
  exact C5_last_match_wins
    [.dict [("nutrient", .dict [("id", .int 208)]), ("amount", .int 100)],
     .dict [("nutrient", .dict [("name", .str "Energy")]), ("amount", .int 200)]]
    { calories := some ((200 : ℤ) : ℚ) } rfl .calories

/-- C6: (a) an entry that matches a kind but whose amount fails `float`
coercion makes the whole extraction fail with that error — after any clean
prefix and regardless of the suffix — and the error propagates through the
detail handler as an uncaught exception, with no partial `Nutrients` value;
(b) an entry that matches no kind never reaches the coercion, so its amount
may be arbitrary garbage without causing an error. -/
theorem C6_coercion_failure_is_fatal :
    (∀ (pre suf : List PyVal) (n : PyVal) (k : NutrientKind) (e : PyErr)
        (f : Nutrients) (fdc_id : ℤ),
      extractLoop initNutrients pre = .ok f →
      matchedKind n = .ok (some k) →
      pyFloat (amountOf n) = .error e →
      _extract_key_nutrients
          (.dict [("foodNutrients", .list (pre ++ n :: suf))]) = .error e ∧
      detailAfterCall fdc_id
          ⟨200, .ok (.dict [("foodNutrients", .list (pre ++ n :: suf))])⟩ =
        .error (.pyExc e)) ∧
    (∀ (found : Nutrients) (n : PyVal),
      matchedKind n = .ok Option.none → nutStep found n = .ok found) := by
  have hb : ∀ (found : Nutrients) (n : PyVal),
      matchedKind n = .ok Option.none → nutStep found n = .ok found := by
    intro found n hm
    rw [nutStep_factor, entryKind, hm]
    rfl
  have hstep : ∀ (f : Nutrients) (n : PyVal) (k : NutrientKind) (e : PyErr),
      matchedKind n = .ok (some k) → pyFloat (amountOf n) = .error e →
      nutStep f n = .error e := by
    intro f n k e hm hc
    rw [nutStep_factor, entryKind, hm, hc]
    rfl
  have ha : ∀ (pre suf : List PyVal) (n : PyVal) (k : NutrientKind) (e : PyErr)
      (f : Nutrients),
      extractLoop initNutrients pre = .ok f →
      matchedKind n = .ok (some k) →
      pyFloat (amountOf n) = .error e →
      _extract_key_nutrients
          (.dict [("foodNutrients", .list (pre ++ n :: suf))]) = .error e := by
    intro pre suf n k e f hpre hm hc
    rw [extract_on_entries, extractLoop_append, hpre]
    show extractLoop f (n :: suf) = .error e
    rw [extractLoop_cons, hstep f n k e hm hc]
  refine ⟨?_, hb⟩
  intro pre suf n k e f fdc_id hpre hm hc
  refine ⟨ha pre suf n k e f hpre hm hc, ?_⟩
  simp [detailAfterCall, pyOr, pyTruthy, pyGetAttrD, dgetD, List.lookup,
    ha pre suf n k e f hpre hm hc]

/-- C6 witness: a calories-matched entry with amount "oops" makes extraction
and the detail handler fail; a sodium entry with a list amount is harmless. -/
theorem C6_witness :
    extractLoop initNutrients [] = .ok initNutrients ∧
    matchedKind (.dict [("nutrient", .dict [("id", .int 208)]), ("amount", .str "oops")]) =
      .ok (some .calories) ∧
    pyFloat (amountOf (.dict [("nutrient", .dict [("id", .int 208)]), ("amount", .str "oops")])) =
      .error .valueError ∧
    _extract_key_nutrients (.dict [("foodNutrients", .list
        [.dict [("nutrient", .dict [("id", .int 208)]), ("amount", .str "oops")]])]) =
      .error .valueError ∧
    detailAfterCall 7
        ⟨200, .ok (.dict [("foodNutrients", .list
          [.dict [("nutrient", .dict [("id", .int 208)]), ("amount", .str "oops")]])])⟩ =
      .error (.pyExc .valueError) ∧
    matchedKind (.dict [("nutrient", .dict [("name", .str "Sodium, Na")]), ("amount", .list [])]) =
      .ok Option.none ∧
    nutStep initNutrients
        (.dict [("nutrient", .dict [("name", .str "Sodium, Na")]), ("amount", .list [])]) =
      .ok initNutrients := by
  refine ⟨rfl, rfl, rfl, ?_, ?_, rfl, ?_⟩
  · exact (C6_coercion_failure_is_fatal.1 [] []
      (.dict [("nutrient", .dict [("id", .int 208)]), ("amount", .str "oops")])
      .calories .valueError initNutrients 7 rfl rfl rfl).1
  · exact (C6_coercion_failure_is_fatal.1 [] []
      (.dict [("nutrient", .dict [("id", .int 208)]), ("amount", .str "oops")])
      .calories .valueError initNutrients 7 rfl rfl rfl).2
  · exact C6_coercion_failure_is_fatal.2 initNutrients
      (.dict [("nutrient", .dict [("name", .str "Sodium, Na")]), ("amount", .list [])]) rfl

theorem pyTruthy_list_nil : pyTruthy (.list []) = false := rfl

theorem pyTruthy_dict_nil : pyTruthy (.dict []) = false := rfl

theorem pyOr_dict_empty (d : List (String × PyVal)) :
    pyOr (.dict d) (.dict []) = .dict d := by
  cases d with
  | nil => rfl
  | cons p r => rfl

/-- C2, counterexample: an upstream response with a successful status (200)
but an unparseable body makes the search handler raise the JSON decode error
(`resp.json()` raises before the `or \x7b\x7d` fallback can apply): it is not
treated as an empty mapping and no default response is produced. -/
theorem C2_counterexample :
    search_foods (some "key") "apple" 1 (.resp ⟨200, .error ()⟩) =
      (.error (.pyExc .jsonDecodeError), 1) := rfl

/-- C2, amended: on a successful status, only a body that parses as JSON to a
falsy value (`null`, `false`, `0`, `""`, `[]`, or an empty object) is
replaced by the empty mapping, after which both handlers produce the
documented defaults; an empty or unparseable body instead raises a JSON
decode error. -/
theorem C2_falsy_body_defaults (st : ℕ) (v : PyVal) (page fdc_id : ℤ)
    (hst : st < 400) (hv : pyTruthy v = false) :
    searchAfterCall page ⟨st, .ok v⟩ = .ok ⟨[], 0, page, 0⟩ ∧
    detailAfterCall fdc_id ⟨st, .ok v⟩ = .ok ⟨fdc_id, "Unknown item", initNutrients⟩ := by
  have hst' : ¬ (400 ≤ st) := by omega
  have h404 : (st == 404) = false := by
    simp only [beq_eq_false_iff_ne]
    omega
  constructor
  · simp [searchAfterCall, hst', hv, pyOr, pyGetAttrD, dgetD, _simplify_foods, pyIterList,
      simpLoop, intField, pyInt, List.lookup, pyTruthy_list_nil, pyTruthy_dict_nil]
  · simp [detailAfterCall, hst', h404, hv, pyOr, pyGetAttrD, dgetD, _extract_key_nutrients,
      pyIterList, extractLoop, intField, pyInt, pyStr, List.lookup, pyTruthy_list_nil,
      pyTruthy_dict_nil, pyTruthy_none]

/-- C2 witness: a 200 response whose body parses to JSON `null` yields the
default search and detail responses. -/
theorem C2_witness :
    (200 : ℕ) < 400 ∧ pyTruthy .none = false ∧
    searchAfterCall 1 ⟨200, .ok .none⟩ = .ok ⟨[], 0, 1, 0⟩ ∧
    detailAfterCall 7 ⟨200, .ok .none⟩ = .ok ⟨7, "Unknown item", initNutrients⟩ :=
  ⟨by decide, rfl, (C2_falsy_body_defaults 200 .none 1 7 (by decide) rfl).1,
    (C2_falsy_body_defaults 200 .none 1 7 (by decide) rfl).2⟩

/-- C10: when the search handler succeeds and the upstream body carried a
`currentPage` value that is present but falsy, the response's `pageNumber` is
the requested page (the `or page` fallback fires on falsiness, not only on
absence). -/
theorem C10_falsy_currentPage_falls_back (key query : String) (page : ℤ)
    (st : ℕ) (d : List (String × PyVal)) (v : PyVal) (out : SearchResponse)
    (hkey : (key == "") = false)
    (hv : List.lookup "currentPage" d = some v) (hfalsy : pyTruthy v = false)
    (hok : search_foods (some key) query page (.resp ⟨st, .ok (.dict d)⟩) = (.ok out, 1)) :
    out.pageNumber = page := by
  have hok1 : searchAfterCall page ⟨st, .ok (.dict d)⟩ = .ok out := by
    simp [search_foods, pyTruthyStrOpt, hkey] at hok
    exact hok
  by_cases hst : 400 ≤ st
  · simp [searchAfterCall, hst] at hok1
  · cases hF : _simplify_foods (dgetD d "foods" (.list [])) with
    | error e => simp [searchAfterCall, hst, pyOr_dict_empty, pyGetAttrD, hF] at hok1
    | ok foods =>
      cases hTH : intField (.dict d) "totalHits" (.int 0) with
      | error e =>
        simp [searchAfterCall, hst, pyOr_dict_empty, pyGetAttrD, hF, hTH] at hok1
      | ok th =>
        have hCP : intField (.dict d) "currentPage" (.int page) = .ok page := by
          simp [intField, pyGetAttrD, dgetD, hv, pyOr, hfalsy, pyInt]
        cases hTP : intField (.dict d) "totalPages" (.int 0) with
        | error e =>
          simp [searchAfterCall, hst, pyOr_dict_empty, pyGetAttrD, hF, hTH, hCP, hTP] at hok1
        | ok tp =>
          simp [searchAfterCall, hst, pyOr_dict_empty, pyGetAttrD, hF, hTH, hCP, hTP] at hok1
          subst hok1
          rfl

/-- C10 witness: `currentPage` reported as `0` (falsy) makes the handler
answer with the requested page 3. -/
theorem C10_witness :
    ("key" == "") = false ∧
    List.lookup "currentPage" [("currentPage", PyVal.int 0)] = some (PyVal.int 0) ∧
    pyTruthy (PyVal.int 0) = false ∧
    search_foods (some "key") "apple" 3
        (.resp ⟨200, .ok (.dict [("currentPage", .int 0)])⟩) =
      (.ok ⟨[], 0, 3, 0⟩, 1) ∧
    SearchResponse.pageNumber ⟨[], 0, 3, 0⟩ = 3 := by
  refine ⟨rfl, rfl, rfl, rfl, ?_⟩
  exact C10_falsy_currentPage_falls_back "key" "apple" 3 200
    [("currentPage", .int 0)] (.int 0) ⟨[], 0, 3, 0⟩ rfl rfl rfl rfl

end FoodApp
